import Mathlib

/-!
Verification development for the CodeBumble background service.

The definitions below are a shallow embedding of the orchestration core of
the repository: `src/core_service.py` (class CodeBumbleService) and
`src/keyboard_simulator.py` (classes KeyboardSimulator and InputMonitor).
Pure state manipulation is translated into Lean functions over explicit
state records; the external collaborators (screen capture, OCR extraction,
the remote assistant, the clipboard and keystroke backends) are modelled by
the values they return, supplied as inputs to each step, exactly where the
orchestrator branches on those values.
-/

namespace CodeBumble

/-- Mirror of the dataclass CodeResponse in ai_client.py, restricted to the
fields the orchestrator reads (code, confidence) plus the attribute
raw_instruction_text that core_service.py line 270 attaches dynamically.
Confidence is a float in the source; it is modelled as a rational, which
preserves every comparison against the 0.5 threshold. -/
structure CodeResponse where
  code : String
  confidence : ℚ
  raw_instruction_text : String := ""
  deriving DecidableEq

/-- A screen region dictionary with keys x, y, width, height, as produced by
window_detector.get_instruction_region and consumed in core_service.py. -/
structure Region where
  x : Int
  y : Int
  width : Int
  height : Int
  deriving DecidableEq

/-- The dictionary assigned to self.active_coding_window in
core_service.py lines 215-223 (keys instruction_panel and code_editor). -/
structure Layout where
  instruction_panel : Region
  code_editor : Region
  deriving DecidableEq

/-- Mirror of self.session_stats (core_service.py lines 49-55); uptime_start
is a timestamp in seconds. -/
structure SessionStats where
  sessions_started : Nat
  problems_solved : Nat
  characters_typed : Nat
  api_calls_made : Nat
  uptime_start : Int
  deriving DecidableEq

/-- The mutable fields of KeyboardSimulator that the orchestration logic
reads or writes (keyboard_simulator.py lines 44-46). -/
structure KeyboardSimState where
  is_typing : Bool
  should_stop : Bool
  deriving DecidableEq

/-- The mutable field of InputMonitor that the session protocol uses
(keyboard_simulator.py line 309). -/
structure InputMonitorState where
  typing_session_active : Bool
  deriving DecidableEq

/-- The trigger-kind tags passed to the input callback
(keyboard_simulator.py lines 104 and 113). -/
inductive TriggerType
  | tab_triggered
  | typing_started
  | other
  deriving DecidableEq

/-- The mutable state of CodeBumbleService (core_service.py __init__,
lines 24-69) that the claims are about, together with the contained
KeyboardSimulator and InputMonitor states.  Timestamps are integers in
seconds, so one hour is 3600. -/
structure ServiceState where
  is_running : Bool
  is_paused : Bool
  last_instruction_text : String
  cached_ai_response : Option CodeResponse
  active_coding_window : Option Layout
  session_stats : SessionStats
  typing_sessions_this_hour : Nat
  last_hour_reset : Int
  max_sessions_per_hour : Nat
  keyboard_sim : KeyboardSimState
  input_monitor : InputMonitorState
  last_trigger_type : Option TriggerType
  deriving DecidableEq

/-- The configuration keys the modelled paths read.  A field is none when
the key is absent from the config dictionary, mirroring config.get with its
default: USE_CLIPBOARD defaults to true, AUTO_TYPE to false
(core_service.py lines 334 and 345); GEMINI_API_KEY has no default
(core_service.py line 425, where some "" is a present-but-falsy value). -/
structure Config where
  gemini_api_key : Option String
  use_clipboard : Option Bool
  auto_type : Option Bool
  deriving DecidableEq

/-- KeyboardSimulator.is_currently_typing (keyboard_simulator.py
lines 295-297): returns the is_typing flag. -/
def is_currently_typing (k : KeyboardSimState) : Bool :=
  k.is_typing

/-- KeyboardSimulator.copy_to_clipboard (keyboard_simulator.py
lines 262-270): calls pyperclip and returns success or failure without
touching any simulator state.  The clipboard outcome is the oracle
clipboard_ok. -/
def copy_to_clipboard (_text : String) (clipboard_ok : Bool)
    (k : KeyboardSimState) : KeyboardSimState × Bool :=
  (k, clipboard_ok)

/-- KeyboardSimulator.copy_and_notify (keyboard_simulator.py
lines 281-287): delegates to copy_to_clipboard and logs; no state change. -/
def copy_and_notify (text : String) (clipboard_ok : Bool)
    (k : KeyboardSimState) : KeyboardSimState × Bool :=
  copy_to_clipboard text clipboard_ok k

/-- KeyboardSimulator.type_text_naturally (keyboard_simulator.py
lines 129-154): refuses when is_typing is already set; otherwise sets
is_typing and should_stop, performs the keystrokes (typing_ok is the oracle
for the try body succeeding), and the finally block clears is_typing, so
the net state has is_typing false and should_stop false. -/
def type_text_naturally (_text : String) (_target_x _target_y : Int)
    (typing_ok : Bool) (k : KeyboardSimState) : KeyboardSimState × Bool :=
  if k.is_typing then (k, false)
  else ({ k with is_typing := false, should_stop := false }, typing_ok)

/-- CodeBumbleService._validate_config (core_service.py lines 423-432):
GEMINI_API_KEY must be present and truthy (nonempty string). -/
def validate_config (cfg : Config) : Bool :=
  match cfg.gemini_api_key with
  | none => false
  | some k => !(k == "")

/-- CodeBumbleService.start (core_service.py lines 92-129).  The returned
Bool is true exactly when the loops were started (threads spawned, input
monitoring begun).  api_key_valid is the result of the
ai_client.validate_api_key probe; now is the current timestamp used for the
uptime reset at line 129. -/
def start (cfg : Config) (api_key_valid : Bool) (now : Int)
    (s : ServiceState) : ServiceState × Bool :=
  if s.is_running then (s, false)
  else if !(validate_config cfg) then (s, false)
  else if !api_key_valid then (s, false)
  else
    ({ s with is_running := true,
              session_stats := { s.session_stats with uptime_start := now } },
     true)

/-- CodeBumbleService._can_start_typing_session (core_service.py
lines 383-397). -/
def can_start_typing_session (s : ServiceState) : Bool :=
  if s.max_sessions_per_hour ≤ s.typing_sessions_this_hour then false
  else if is_currently_typing s.keyboard_sim then false
  else if s.is_paused then false
  else true

/-- CodeBumbleService._reset_hourly_counters (core_service.py
lines 399-404): datetime subtraction against timedelta(hours=1) becomes an
integer comparison against 3600 seconds. -/
def reset_hourly_counters (now : Int) (s : ServiceState) : ServiceState :=
  if 3600 ≤ now - s.last_hour_reset then
    { s with typing_sessions_this_hour := 0, last_hour_reset := now }
  else s

/-- CodeBumbleService._on_typing_session_end (core_service.py
lines 377-381): clears the cached response. -/
def on_typing_session_end (s : ServiceState) : ServiceState :=
  { s with cached_ai_response := none }

/-- InputMonitor.end_typing_session (keyboard_simulator.py lines 344-349):
when a session is active, clears the flag and fires the on_typing_stop
callback, which start() wired to _on_typing_session_end. -/
def end_typing_session (s : ServiceState) : ServiceState :=
  if s.input_monitor.typing_session_active then
    on_typing_session_end
      { s with input_monitor := { typing_session_active := false } }
  else s

/-- CodeBumbleService._on_typing_session_start (core_service.py
lines 291-316).  The returned Bool is true exactly when a delivery thread
running _execute_typing_session is spawned.  locate is the result of
window_detector.find_code_input_field on a fresh screenshot (none when no
input field is found, or when the lookup fails). -/
def on_typing_session_start (locate : Option (Int × Int))
    (s : ServiceState) : ServiceState × Bool :=
  if s.cached_ai_response.isNone || s.active_coding_window.isNone then
    (s, false)
  else if !(can_start_typing_session s) then (s, false)
  else
    match locate with
    | none => (s, false)
    | some _ => (s, true)

/-- InputMonitor.start_typing_session (keyboard_simulator.py
lines 337-342): a no-op when a session is already active; otherwise sets
the flag and fires the on_typing_start callback, which start() wired to
_on_typing_session_start. -/
def start_typing_session (locate : Option (Int × Int))
    (s : ServiceState) : ServiceState × Bool :=
  if s.input_monitor.typing_session_active then (s, false)
  else
    on_typing_session_start locate
      { s with input_monitor := { typing_session_active := true } }

/-- CodeBumbleService._on_user_input_detected (core_service.py
lines 282-289): on a tab or typing trigger that passes the guard, records
the trigger kind and asks the InputMonitor to start a session. -/
def on_user_input_detected (t : TriggerType) (locate : Option (Int × Int))
    (s : ServiceState) : ServiceState × Bool :=
  if t = TriggerType.tab_triggered ∨ t = TriggerType.typing_started then
    if can_start_typing_session s then
      start_typing_session locate { s with last_trigger_type := some t }
    else (s, false)
  else (s, false)

/-- The outcome of one delivery attempt inside _execute_typing_session:
the delivery call returned true, returned false, or the try body raised
before reaching the delivery branches (the except arm at
core_service.py lines 371-372). -/
inductive DeliveryOutcome
  | ok
  | failed
  | exn
  deriving DecidableEq

/-- The delivery call a session performs (core_service.py lines 336, 347
and 362): a clipboard copy of the cached code, or naturally-typed keystrokes
of the cached code at the located coordinate. -/
inductive DeliveryAction
  | clipboardCopy (text : String)
  | typeNaturally (text : String) (x y : Int)
  deriving DecidableEq

/-- The text carried by a delivery action. -/
def action_text : DeliveryAction → String
  | DeliveryAction.clipboardCopy t => t
  | DeliveryAction.typeNaturally t _ _ => t

/-- The branch structure of _execute_typing_session (core_service.py
lines 332-369): with a cached response present, USE_CLIPBOARD (default
true) selects the clipboard copy, otherwise AUTO_TYPE (default false)
selects simulated typing, otherwise the else arm falls back to the
clipboard copy.  With no cached response nothing is delivered. -/
def session_actions (cfg : Config) (loc : Int × Int)
    (s : ServiceState) : List DeliveryAction :=
  match s.cached_ai_response with
  | none => []
  | some r =>
    if cfg.use_clipboard.getD true then [DeliveryAction.clipboardCopy r.code]
    else if cfg.auto_type.getD false then
      [DeliveryAction.typeNaturally r.code loc.1 loc.2]
    else [DeliveryAction.clipboardCopy r.code]

/-- Dispatch of a delivery action to the KeyboardSimulator call the source
makes in that branch. -/
def run_delivery_action (a : DeliveryAction) (delivery_ok : Bool)
    (k : KeyboardSimState) : KeyboardSimState × Bool :=
  match a with
  | DeliveryAction.clipboardCopy text => copy_and_notify text delivery_ok k
  | DeliveryAction.typeNaturally text x y =>
    type_text_naturally text x y delivery_ok k

/-- CodeBumbleService._execute_typing_session (core_service.py
lines 318-375).  All three delivery branches perform the same bookkeeping
on success (increment sessions_started, add the code length to
characters_typed, increment typing_sessions_this_hour); outcome exn models
the try body raising before the bookkeeping, caught at lines 371-372.  The
finally block at lines 374-375 always runs end_typing_session. -/
def execute_typing_session (cfg : Config) (loc : Int × Int)
    (outcome : DeliveryOutcome) (s : ServiceState) : ServiceState :=
  let s1 :=
    match outcome with
    | DeliveryOutcome.exn => s
    | o =>
      match session_actions cfg loc s with
      | [] => s
      | a :: _ =>
        let kr := run_delivery_action a (decide (o = DeliveryOutcome.ok))
          s.keyboard_sim
        let s2 := { s with keyboard_sim := kr.1 }
        if kr.2 then
          { s2 with
              session_stats := { s2.session_stats with
                sessions_started := s2.session_stats.sessions_started + 1,
                characters_typed := s2.session_stats.characters_typed +
                  (action_text a).length },
              typing_sessions_this_hour := s2.typing_sessions_this_hour + 1 }
        else s2
  end_typing_session s1

/-- The collaborator results one capture-analysis tick consumes
(core_service.py _process_screen_analysis): the screenshot (its pixel
width, shape[1], or none on capture failure), the resolved instruction
region, the OCR-extracted instruction text, the
text_extractor.is_valid_coding_problem verdict, and the
ai_client.generate_code_solution result (none on failure or exception,
which _prepare_ai_response swallows). -/
structure TickInput where
  screenshot_width : Option Int
  instruction_region : Option Region
  extracted_text : String
  is_valid_problem : Bool
  ai_response : Option CodeResponse
  deriving DecidableEq

/-- CodeBumbleService._prepare_ai_response (core_service.py lines 254-280):
attaches raw_instruction_text to the response, then caches it and
increments api_calls_made only when its confidence exceeds 0.5; a none
response (generation failure or a caught exception) changes nothing. -/
def prepare_ai_response (instruction_text : String)
    (resp : Option CodeResponse) (s : ServiceState) : ServiceState :=
  match resp with
  | none => s
  | some r =>
    let r2 := { r with raw_instruction_text := instruction_text }
    if mkRat 1 2 < r2.confidence then
      { s with cached_ai_response := some r2,
               session_stats := { s.session_stats with
                 api_calls_made := s.session_stats.api_calls_made + 1 } }
    else s

/-- CodeBumbleService._process_screen_analysis (core_service.py
lines 194-252).  The returned Bool is true exactly when the assistant is
consulted, i.e. when _prepare_ai_response is invoked.  On success the
active layout is rebuilt with the code_editor region derived from the
instruction region and the screenshot width (lines 215-223); the newness
gates at line 242 require the text to differ from last_instruction_text
and to be longer than 50 characters, and line 246 updates
last_instruction_text after _prepare_ai_response returns (that call
swallows its own exceptions). -/
def process_screen_analysis (inp : TickInput)
    (s : ServiceState) : ServiceState × Bool :=
  match inp.screenshot_width with
  | none => (s, false)
  | some w =>
    match inp.instruction_region with
    | none => ({ s with active_coding_window := none }, false)
    | some region =>
      let layout : Layout :=
        { instruction_panel := region,
          code_editor :=
            { x := region.x + region.width,
              y := region.y,
              width := w - (region.x + region.width),
              height := region.height } }
      let s1 := { s with active_coding_window := some layout }
      if inp.extracted_text ≠ s1.last_instruction_text ∧
          50 < inp.extracted_text.length then
        if inp.is_valid_problem then
          let s2 := prepare_ai_response inp.extracted_text inp.ai_response s1
          ({ s2 with last_instruction_text := inp.extracted_text }, true)
        else (s1, false)
      else (s1, false)

/-- The asynchronous events that mutate the orchestrator state while the
service runs: a trigger from the input listener
(_on_user_input_detected), the completion of a spawned delivery thread
(_execute_typing_session, with its delivery outcome), a maintenance pass
(_reset_hourly_counters at the given time), a capture-analysis tick
(_process_screen_analysis), and pause or resume. -/
inductive Event
  | trigger (t : TriggerType) (locate : Option (Int × Int))
  | complete (outcome : DeliveryOutcome)
  | maintenance (now : Int)
  | capture (inp : TickInput)
  | pause
  | resume

/-- The service state together with the delivery threads that have been
spawned but have not yet completed, each carrying the input location it
was spawned with. -/
structure SysState where
  svc : ServiceState
  pending : List (Int × Int)
  deriving DecidableEq

/-- One interleaved step of the running system.  A trigger that spawns a
delivery thread (on_user_input_detected returning true) adds the located
coordinate to the pending list; a completion event retires one pending
thread through execute_typing_session. -/
def step (cfg : Config) (st : SysState) (e : Event) : SysState :=
  match e with
  | Event.trigger t locate =>
    let p := on_user_input_detected t locate st.svc
    { svc := p.1,
      pending := if p.2 then locate.toList ++ st.pending else st.pending }
  | Event.complete outcome =>
    match st.pending with
    | [] => st
    | loc :: rest =>
      { svc := execute_typing_session cfg loc outcome st.svc,
        pending := rest }
  | Event.maintenance now => { st with svc := reset_hourly_counters now st.svc }
  | Event.capture inp =>
    { st with svc := (process_screen_analysis inp st.svc).1 }
  | Event.pause => { st with svc := { st.svc with is_paused := true } }
  | Event.resume => { st with svc := { st.svc with is_paused := false } }

/-- A run of the system over a sequence of events. -/
def run (cfg : Config) (st : SysState) (es : List Event) : SysState :=
  es.foldl (step cfg) st

/-- The session-guard invariant: the hourly counter respects the cap, at
most one delivery thread is in flight, and while one is in flight the
session-active flag is set and the counter is strictly below the cap
(it was checked by the guard when the thread was spawned and is not
touched until the thread completes). -/
def GuardInv (st : SysState) : Prop :=
  st.svc.typing_sessions_this_hour ≤ st.svc.max_sessions_per_hour ∧
  st.pending.length ≤ 1 ∧
  (st.pending = [] ∨
    (st.svc.input_monitor.typing_session_active = true ∧
     st.svc.typing_sessions_this_hour < st.svc.max_sessions_per_hour))

instance (st : SysState) : Decidable (GuardInv st) := by
  unfold GuardInv; infer_instance

lemma can_start_lt (s : ServiceState) (h : can_start_typing_session s = true) :
    s.typing_sessions_this_hour < s.max_sessions_per_hour := by
  by_contra hc
  push_neg at hc
  unfold can_start_typing_session at h
  rw [if_pos hc] at h
  exact Bool.false_ne_true h

lemma can_start_update (s : ServiceState) (cr : Option CodeResponse)
    (w : Option Layout) (im : InputMonitorState) (lt : Option TriggerType) :
    can_start_typing_session
      { s with cached_ai_response := cr, active_coding_window := w,
               input_monitor := im, last_trigger_type := lt } =
      can_start_typing_session s := rfl

lemma on_user_input_detected_eq (t : TriggerType) (l : Option (Int × Int))
    (s : ServiceState) :
    on_user_input_detected t l s =
      if (t = TriggerType.tab_triggered ∨ t = TriggerType.typing_started) ∧
          can_start_typing_session s = true then
        if s.input_monitor.typing_session_active = true then
          ({ s with last_trigger_type := some t }, false)
        else
          ({ s with last_trigger_type := some t,
                    input_monitor := { typing_session_active := true } },
           (s.cached_ai_response.isSome && s.active_coding_window.isSome) &&
             l.isSome)
      else (s, false) := by
  unfold on_user_input_detected start_typing_session on_typing_session_start
  by_cases ht : t = TriggerType.tab_triggered ∨ t = TriggerType.typing_started <;>
    cases hcs : can_start_typing_session s <;>
      cases hact : s.input_monitor.typing_session_active <;>
        cases hc : s.cached_ai_response <;>
          cases hw : s.active_coding_window <;>
            cases l <;>
              simp_all [can_start_update]

lemma execute_typing_session_fields (cfg : Config) (loc : Int × Int)
    (o : DeliveryOutcome) (s : ServiceState) :
    (execute_typing_session cfg loc o s).max_sessions_per_hour =
      s.max_sessions_per_hour ∧
    (execute_typing_session cfg loc o s).typing_sessions_this_hour ≤
      s.typing_sessions_this_hour + 1 ∧
    (execute_typing_session cfg loc o s).input_monitor.typing_session_active =
      false ∧
    (execute_typing_session cfg loc o s).last_hour_reset = s.last_hour_reset := by
  unfold execute_typing_session end_typing_session on_typing_session_end
    run_delivery_action copy_and_notify copy_to_clipboard type_text_naturally
    session_actions
  dsimp only
  repeat' split
  all_goals refine ⟨rfl, ?_, ?_, rfl⟩
  all_goals try exact Nat.le_succ _
  all_goals try exact le_refl _
  all_goals simp_all

lemma reset_hourly_counters_cases (now : Int) (s : ServiceState) :
    reset_hourly_counters now s = s ∨
    reset_hourly_counters now s =
      { s with typing_sessions_this_hour := 0, last_hour_reset := now } := by
  unfold reset_hourly_counters
  split
  · exact Or.inr rfl
  · exact Or.inl rfl

lemma process_screen_analysis_fields (inp : TickInput) (s : ServiceState) :
    (process_screen_analysis inp s).1.typing_sessions_this_hour =
      s.typing_sessions_this_hour ∧
    (process_screen_analysis inp s).1.max_sessions_per_hour =
      s.max_sessions_per_hour ∧
    (process_screen_analysis inp s).1.input_monitor = s.input_monitor ∧
    (process_screen_analysis inp s).1.keyboard_sim = s.keyboard_sim ∧
    (process_screen_analysis inp s).1.is_paused = s.is_paused ∧
    (process_screen_analysis inp s).1.last_hour_reset = s.last_hour_reset := by
  unfold process_screen_analysis prepare_ai_response
  dsimp only
  repeat' split
  all_goals simp_all

lemma guardInv_step (cfg : Config) (st : SysState) (e : Event)
    (h : GuardInv st) : GuardInv (step cfg st e) := by
  obtain ⟨h1, h2, h3⟩ := h
  cases e with
  | trigger t locate =>
    simp only [step]
    rw [on_user_input_detected_eq]
    by_cases hg : (t = TriggerType.tab_triggered ∨
        t = TriggerType.typing_started) ∧
        can_start_typing_session st.svc = true
    · rw [if_pos hg]
      have hlt := can_start_lt st.svc hg.2
      by_cases hact : st.svc.input_monitor.typing_session_active = true
      · rw [if_pos hact]
        refine ⟨h1, ?_, ?_⟩
        · simpa using h2
        · rcases h3 with h3 | h3
          · exact Or.inl (by simp [h3])
          · exact Or.inr ⟨h3.1, h3.2⟩
      · rw [if_neg hact]
        have hpend : st.pending = [] := by
          rcases h3 with h3 | h3
          · exact h3
          · exact absurd h3.1 hact
        rw [hpend]
        refine ⟨h1, ?_, Or.inr ⟨rfl, hlt⟩⟩
        dsimp only
        split
        · cases locate <;> simp
        · simp
    · rw [if_neg hg]
      exact ⟨h1, h2, h3⟩
  | complete o =>
    simp only [step]
    cases hp : st.pending with
    | nil => exact ⟨h1, h2, h3⟩
    | cons loc rest =>
      rw [hp] at h2 h3
      have hf := execute_typing_session_fields cfg loc o st.svc
      have hrest : rest = [] := by simpa using h2
      have hcnt : st.svc.typing_sessions_this_hour <
          st.svc.max_sessions_per_hour := by
        rcases h3 with h3 | h3
        · exact absurd h3 (by simp)
        · exact h3.2
      refine ⟨?_, by simp [hrest], Or.inl hrest⟩
      have hm := hf.1
      have hc2 := hf.2.1
      show (execute_typing_session cfg loc o st.svc).typing_sessions_this_hour ≤
        (execute_typing_session cfg loc o st.svc).max_sessions_per_hour
      omega
  | maintenance now =>
    simp only [step]
    rcases reset_hourly_counters_cases now st.svc with hc | hc <;> rw [hc]
    · exact ⟨h1, h2, h3⟩
    · refine ⟨Nat.zero_le _, h2, ?_⟩
      rcases h3 with h3 | h3
      · exact Or.inl h3
      · refine Or.inr ⟨h3.1, ?_⟩
        show 0 < st.svc.max_sessions_per_hour
        omega
  | capture inp =>
    simp only [step]
    have hf := process_screen_analysis_fields inp st.svc
    refine ⟨?_, h2, ?_⟩
    · rw [hf.1, hf.2.1]
      exact h1
    · rcases h3 with h3 | h3
      · exact Or.inl h3
      · refine Or.inr ⟨?_, ?_⟩
        · rw [hf.2.2.1]
          exact h3.1
        · rw [hf.1, hf.2.1]
          exact h3.2
  | pause => exact ⟨h1, h2, h3⟩
  | resume => exact ⟨h1, h2, h3⟩

lemma guardInv_run (cfg : Config) (st : SysState) (es : List Event)
    (h : GuardInv st) : GuardInv (run cfg st es) := by
  induction es generalizing st with
  | nil => exact h
  | cons e es ih => exact ih (step cfg st e) (guardInv_step cfg st e h)

lemma step_max_eq (cfg : Config) (st : SysState) (e : Event) :
    (step cfg st e).svc.max_sessions_per_hour =
      st.svc.max_sessions_per_hour := by
  cases e with
  | trigger t locate =>
    simp only [step]
    rw [on_user_input_detected_eq]
    repeat' split
    all_goals rfl
  | complete o =>
    simp only [step]
    cases hp : st.pending with
    | nil => rfl
    | cons loc rest => exact (execute_typing_session_fields cfg loc o st.svc).1
  | maintenance now =>
    simp only [step]
    rcases reset_hourly_counters_cases now st.svc with hc | hc <;> rw [hc]
  | capture inp => exact (process_screen_analysis_fields inp st.svc).2.1
  | pause => rfl
  | resume => rfl

lemma run_max_eq (cfg : Config) (st : SysState) (es : List Event) :
    (run cfg st es).svc.max_sessions_per_hour =
      st.svc.max_sessions_per_hour := by
  induction es generalizing st with
  | nil => rfl
  | cons e es ih => rw [run, List.foldl_cons, ← run, ih, step_max_eq]

lemma execute_typing_session_cleanup (cfg : Config) (loc : Int × Int)
    (o : DeliveryOutcome) (s : ServiceState)
    (h : s.input_monitor.typing_session_active = true) :
    (execute_typing_session cfg loc o s).cached_ai_response = none := by
  unfold execute_typing_session end_typing_session on_typing_session_end
    run_delivery_action copy_and_notify copy_to_clipboard type_text_naturally
    session_actions
  dsimp only
  repeat' split
  all_goals simp_all

lemma no_spawn_without_cache (t : TriggerType) (l : Option (Int × Int))
    (s : ServiceState) (h : s.cached_ai_response = none) :
    (on_user_input_detected t l s).2 = false := by
  rw [on_user_input_detected_eq]
  repeat' split
  all_goals simp_all

lemma execute_keyboard_eq (cfg : Config) (loc : Int × Int)
    (o : DeliveryOutcome) (s : ServiceState)
    (hm : cfg.use_clipboard.getD true = true) :
    (execute_typing_session cfg loc o s).keyboard_sim = s.keyboard_sim := by
  unfold execute_typing_session end_typing_session on_typing_session_end
    run_delivery_action copy_and_notify copy_to_clipboard session_actions
  dsimp only
  repeat' split
  all_goals cases hcr : s.cached_ai_response <;> simp_all

lemma step_keyboard_eq (cfg : Config) (st : SysState) (e : Event)
    (hm : cfg.use_clipboard.getD true = true) :
    (step cfg st e).svc.keyboard_sim = st.svc.keyboard_sim := by
  cases e with
  | trigger t locate =>
    simp only [step]
    rw [on_user_input_detected_eq]
    repeat' split
    all_goals rfl
  | complete o =>
    simp only [step]
    cases hp : st.pending with
    | nil => rfl
    | cons loc rest => exact execute_keyboard_eq cfg loc o st.svc hm
  | maintenance now =>
    simp only [step]
    rcases reset_hourly_counters_cases now st.svc with hc | hc <;> rw [hc]
  | capture inp => exact (process_screen_analysis_fields inp st.svc).2.2.2.1
  | pause => rfl
  | resume => rfl

lemma run_keyboard_eq (cfg : Config) (st : SysState) (es : List Event)
    (hm : cfg.use_clipboard.getD true = true) :
    (run cfg st es).svc.keyboard_sim = st.svc.keyboard_sim := by
  induction es generalizing st with
  | nil => rfl
  | cons e es ih =>
    rw [run, List.foldl_cons, ← run, ih, step_keyboard_eq cfg st e hm]

lemma can_start_reject_iff (s : ServiceState)
    (h : s.keyboard_sim.is_typing = false) :
    can_start_typing_session s = false ↔
      (s.max_sessions_per_hour ≤ s.typing_sessions_this_hour ∨
        s.is_paused = true) := by
  unfold can_start_typing_session is_currently_typing
  repeat' split
  all_goals simp_all

/-- A generated answer with confidence above the 0.5 threshold, used as a
concrete evaluation point. -/
def exampleHighResponse : CodeResponse :=
  { code := "def add(a, b):\n    return a + b", confidence := mkRat 4 5 }

/-- A generated answer with confidence below the 0.5 threshold, matching
the low-confidence scenario of the specification. -/
def exampleLowResponse : CodeResponse :=
  { code := "pass", confidence := mkRat 3 10 }

/-- A concrete instruction region. -/
def exampleRegion : Region := { x := 0, y := 0, width := 400, height := 300 }

/-- The layout derived from exampleRegion on a 1280-pixel-wide screenshot,
exactly as _process_screen_analysis builds it. -/
def exampleLayout : Layout :=
  { instruction_panel := exampleRegion,
    code_editor := { x := 400, y := 0, width := 880, height := 300 } }

/-- Zeroed statistics. -/
def exampleStats : SessionStats :=
  { sessions_started := 0, problems_solved := 0, characters_typed := 0,
    api_calls_made := 0, uptime_start := 0 }

/-- A concrete running service state with a cached answer, an active
layout, no session in flight and no rate limiting. -/
def exampleService : ServiceState :=
  { is_running := true, is_paused := false, last_instruction_text := "",
    cached_ai_response := some exampleHighResponse,
    active_coding_window := some exampleLayout,
    session_stats := exampleStats, typing_sessions_this_hour := 0,
    last_hour_reset := 0, max_sessions_per_hour := 5,
    keyboard_sim := { is_typing := false, should_stop := false },
    input_monitor := { typing_session_active := false },
    last_trigger_type := none }

/-- exampleService with an active delivery session flag. -/
def exampleActiveState : ServiceState :=
  { exampleService with input_monitor := { typing_session_active := true } }

/-- exampleService with no cached answer: the state in which a trigger
must be dropped by the no-cached-answer precondition. -/
def exampleStateNoCache : ServiceState :=
  { exampleService with cached_ai_response := none }

/-- A configuration with a usable credential and neither delivery mode
explicitly set. -/
def exampleConfig : Config :=
  { gemini_api_key := some "key-1234", use_clipboard := none,
    auto_type := none }

/-- The previously seen instruction text T1 of the specification
scenario. -/
def exampleTextT1 : String :=
  "Write a function that reverses a linked list in one pass here"

/-- A different instruction text T2, longer than 50 characters. -/
def exampleTextT2 : String :=
  "Given an array of integers, return indices of two numbers adding to a target"

/-- The service state after T1 was accepted: last_instruction_text is T1
and the high-confidence answer for it is cached. -/
def exampleStateT1 : ServiceState :=
  { exampleService with
      last_instruction_text := exampleTextT1,
      cached_ai_response :=
        some { exampleHighResponse with raw_instruction_text := exampleTextT1 } }

/-- The capture tick that sees T2 as a valid problem but obtains only a
low-confidence answer for it. -/
def exampleTickT2 : TickInput :=
  { screenshot_width := some 1280, instruction_region := some exampleRegion,
    extracted_text := exampleTextT2, is_valid_problem := true,
    ai_response := some exampleLowResponse }

/-- A capture tick whose extracted text is 50 characters or shorter. -/
def exampleTickShort : TickInput :=
  { screenshot_width := some 1280, instruction_region := some exampleRegion,
    extracted_text := "print hello", is_valid_problem := true,
    ai_response := some exampleHighResponse }

/-- The initial system state for whole-run witnesses. -/
def exampleSys : SysState := { svc := exampleService, pending := [] }

/-- A concrete event sequence exercising a spawned delivery, its
completion, a maintenance pass and two further triggers. -/
def exampleEvents : List Event :=
  [Event.trigger TriggerType.tab_triggered (some (10, 20)),
   Event.complete DeliveryOutcome.ok,
   Event.maintenance 4000,
   Event.capture exampleTickT2,
   Event.trigger TriggerType.typing_started none]

/-- Claim C1: when a delivery session ends, for every outcome (success,
reported failure, or a raised exception), the cached answer is cleared and
the session-active guard flag is reset, and a subsequent trigger with no
newly detected problem performs no delivery (spawns no delivery thread). -/
theorem session_end_clears_cache (cfg : Config) (loc : Int × Int)
    (outcome : DeliveryOutcome) (s : ServiceState)
    (hactive : s.input_monitor.typing_session_active = true)
    (t : TriggerType) (l : Option (Int × Int)) :
    (execute_typing_session cfg loc outcome s).cached_ai_response = none ∧
    (execute_typing_session cfg loc outcome
        s).input_monitor.typing_session_active = false ∧
    (on_user_input_detected t l
        (execute_typing_session cfg loc outcome s)).2 = false := by
  have hc := execute_typing_session_cleanup cfg loc outcome s hactive
  exact ⟨hc, (execute_typing_session_fields cfg loc outcome s).2.2.1,
    no_spawn_without_cache t l _ hc⟩

/-- Witness for C1 at a concrete active session state and outcome. -/
theorem session_end_clears_cache_witness :
    exampleActiveState.input_monitor.typing_session_active = true ∧
    ((execute_typing_session exampleConfig (10, 20) DeliveryOutcome.ok
        exampleActiveState).cached_ai_response = none ∧
      (execute_typing_session exampleConfig (10, 20) DeliveryOutcome.ok
          exampleActiveState).input_monitor.typing_session_active = false ∧
      (on_user_input_detected TriggerType.tab_triggered (some (10, 20))
          (execute_typing_session exampleConfig (10, 20) DeliveryOutcome.ok
            exampleActiveState)).2 = false) :=
  ⟨by decide,
   session_end_clears_cache exampleConfig (10, 20) DeliveryOutcome.ok
     exampleActiveState (by decide) TriggerType.tab_triggered (some (10, 20))⟩

/-- Claim C2: over every event sequence the hourly session counter never
exceeds the configured cap, and the counter resets to 0 exactly when at
least one hour (3600 seconds) has elapsed since last_hour_reset, advancing
last_hour_reset to the current time. -/
theorem hourly_cap_and_reset (cfg : Config) (es : List Event)
    (st0 : SysState) (h : GuardInv st0) (now : Int) (s : ServiceState) :
    (run cfg st0 es).svc.typing_sessions_this_hour ≤
      st0.svc.max_sessions_per_hour ∧
    reset_hourly_counters now s =
      (if 3600 ≤ now - s.last_hour_reset then
        { s with typing_sessions_this_hour := 0, last_hour_reset := now }
      else s) := by
  refine ⟨?_, rfl⟩
  have hg := (guardInv_run cfg st0 es h).1
  have hm := run_max_eq cfg st0 es
  omega

/-- Witness for C2 on a concrete run and a concrete maintenance time. -/
theorem hourly_cap_and_reset_witness :
    GuardInv exampleSys ∧
    ((run exampleConfig exampleSys exampleEvents).svc.typing_sessions_this_hour ≤
        exampleSys.svc.max_sessions_per_hour ∧
      reset_hourly_counters 4000 exampleService =
        (if 3600 ≤ 4000 - exampleService.last_hour_reset then
          { exampleService with typing_sessions_this_hour := 0,
                                last_hour_reset := 4000 }
        else exampleService)) :=
  ⟨by decide,
   hourly_cap_and_reset exampleConfig exampleEvents exampleSys (by decide)
     4000 exampleService⟩

/-- Claim C3 evaluation: a trigger that passes the guard but finds no
cached answer spawns no delivery thread, yet it flips the session-active
guard flag to true and, because no delivery thread will ever run
end_typing_session, the flag is never reset: even a later trigger with a
cached answer present spawns nothing.  This contradicts the claim that a
dropped trigger leaves the guard state unchanged. -/
theorem trigger_without_cache_leaks_session_flag :
    exampleStateNoCache.input_monitor.typing_session_active = false ∧
    (on_user_input_detected TriggerType.tab_triggered (some (100, 200))
        exampleStateNoCache).2 = false ∧
    (on_user_input_detected TriggerType.tab_triggered (some (100, 200))
        exampleStateNoCache).1.input_monitor.typing_session_active = true ∧
    (on_user_input_detected TriggerType.tab_triggered (some (100, 200))
        { (on_user_input_detected TriggerType.tab_triggered (some (100, 200))
            exampleStateNoCache).1 with
            cached_ai_response := some exampleHighResponse }).2 = false := by
  decide

/-- Claim C4, counterexample to the claim as stated: on a tick that passes
both newness gates with a valid problem and a confidence of 0.3, the cache
and the assistant-call counter are indeed unchanged, but
last_instruction_text does not stay at its previous value T1 - it is
updated to the new text T2, so the same text is not retried on the next
tick. -/
theorem low_confidence_keeps_cache_but_advances_text :
    (process_screen_analysis exampleTickT2
        exampleStateT1).1.cached_ai_response =
      exampleStateT1.cached_ai_response ∧
    (process_screen_analysis exampleTickT2
        exampleStateT1).1.session_stats.api_calls_made =
      exampleStateT1.session_stats.api_calls_made ∧
    (process_screen_analysis exampleTickT2
        exampleStateT1).1.last_instruction_text ≠
      exampleStateT1.last_instruction_text ∧
    (process_screen_analysis exampleTickT2
        exampleStateT1).1.last_instruction_text =
      exampleTickT2.extracted_text := by
  decide

/-- Claim C4 (amended): after both newness gates pass and the text is a
valid problem, a generated answer with confidence above 0.5 replaces the
cache and increments api_calls_made; an answer with confidence 0.5 or
below is discarded without caching and without incrementing the counter;
in both cases last_instruction_text is updated to the new text (it does
not stay at its previous value). -/
theorem confidence_gate_amended (inp : TickInput) (s : ServiceState)
    (w : Int) (region : Region) (r : CodeResponse)
    (h1 : inp.screenshot_width = some w)
    (h2 : inp.instruction_region = some region)
    (h3 : inp.extracted_text ≠ s.last_instruction_text)
    (h4 : 50 < inp.extracted_text.length)
    (h5 : inp.is_valid_problem = true)
    (hr : inp.ai_response = some r) :
    (process_screen_analysis inp s).2 = true ∧
    (process_screen_analysis inp s).1.last_instruction_text =
      inp.extracted_text ∧
    (process_screen_analysis inp s).1.cached_ai_response =
      (if mkRat 1 2 < r.confidence then
        some { r with raw_instruction_text := inp.extracted_text }
      else s.cached_ai_response) ∧
    (process_screen_analysis inp s).1.session_stats.api_calls_made =
      (if mkRat 1 2 < r.confidence then
        s.session_stats.api_calls_made + 1
      else s.session_stats.api_calls_made) := by
  unfold process_screen_analysis prepare_ai_response
  rw [h1, h2]
  dsimp only
  rw [if_pos ⟨h3, h4⟩, if_pos h5, hr]
  dsimp only
  by_cases hconf : mkRat 1 2 < r.confidence
  · simp [hconf]
  · simp [hconf]

/-- Witness for the amended C4 at the concrete low-confidence tick. -/
theorem confidence_gate_amended_witness :
    (exampleTickT2.screenshot_width = some 1280 ∧
      exampleTickT2.instruction_region = some exampleRegion ∧
      exampleTickT2.extracted_text ≠ exampleStateT1.last_instruction_text ∧
      50 < exampleTickT2.extracted_text.length ∧
      exampleTickT2.is_valid_problem = true ∧
      exampleTickT2.ai_response = some exampleLowResponse) ∧
    ((process_screen_analysis exampleTickT2 exampleStateT1).2 = true ∧
      (process_screen_analysis exampleTickT2
          exampleStateT1).1.last_instruction_text =
        exampleTickT2.extracted_text ∧
      (process_screen_analysis exampleTickT2
          exampleStateT1).1.cached_ai_response =
        (if mkRat 1 2 < exampleLowResponse.confidence then
          some { exampleLowResponse with
                   raw_instruction_text := exampleTickT2.extracted_text }
        else exampleStateT1.cached_ai_response) ∧
      (process_screen_analysis exampleTickT2
          exampleStateT1).1.session_stats.api_calls_made =
        (if mkRat 1 2 < exampleLowResponse.confidence then
          exampleStateT1.session_stats.api_calls_made + 1
        else exampleStateT1.session_stats.api_calls_made)) :=
  ⟨by decide,
   confidence_gate_amended exampleTickT2 exampleStateT1 1280 exampleRegion
     exampleLowResponse rfl rfl (by decide) (by decide) rfl rfl⟩

/-- Claim C5: start() is an idempotent no-op when already running; when
configuration validation fails or the assistant probe fails it leaves the
state unchanged and starts no loops; and the loops start (with running
flipped to true) only when running was false and both checks succeeded. -/
theorem start_validation_guard (cfg : Config) (ok : Bool) (now : Int)
    (s : ServiceState) :
    (s.is_running = true → start cfg ok now s = (s, false)) ∧
    (validate_config cfg = false → start cfg ok now s = (s, false)) ∧
    (ok = false → start cfg ok now s = (s, false)) ∧
    ((start cfg ok now s).2 = true →
      validate_config cfg = true ∧ ok = true ∧ s.is_running = false ∧
      (start cfg ok now s).1.is_running = true) := by
  unfold start
  repeat' split
  all_goals simp_all

/-- Witness for C5 at a concrete configuration and state. -/
theorem start_validation_guard_witness :
    (exampleService.is_running = true →
      start exampleConfig true 0 exampleService = (exampleService, false)) ∧
    (validate_config exampleConfig = false →
      start exampleConfig true 0 exampleService = (exampleService, false)) ∧
    (true = false →
      start exampleConfig true 0 exampleService = (exampleService, false)) ∧
    ((start exampleConfig true 0 exampleService).2 = true →
      validate_config exampleConfig = true ∧ true = true ∧
      exampleService.is_running = false ∧
      (start exampleConfig true 0 exampleService).1.is_running = true) :=
  start_validation_guard exampleConfig true 0 exampleService

/-- Claim C6: over every event sequence at most one delivery session is in
flight at any time, and a trigger arriving while the session-active flag is
set never starts a second concurrent delivery session. -/
theorem single_active_session (cfg : Config) (es : List Event)
    (st0 : SysState) (h : GuardInv st0) (t : TriggerType)
    (l : Option (Int × Int)) (s : ServiceState)
    (hactive : s.input_monitor.typing_session_active = true) :
    (run cfg st0 es).pending.length ≤ 1 ∧
    (on_user_input_detected t l s).2 = false := by
  refine ⟨(guardInv_run cfg st0 es h).2.1, ?_⟩
  rw [on_user_input_detected_eq]
  repeat' split
  all_goals simp_all

/-- Witness for C6 on the concrete run and a concrete active state. -/
theorem single_active_session_witness :
    GuardInv exampleSys ∧
    exampleActiveState.input_monitor.typing_session_active = true ∧
    ((run exampleConfig exampleSys exampleEvents).pending.length ≤ 1 ∧
      (on_user_input_detected TriggerType.tab_triggered (some (10, 20))
          exampleActiveState).2 = false) :=
  ⟨by decide, by decide,
   single_active_session exampleConfig exampleEvents exampleSys (by decide)
     TriggerType.tab_triggered (some (10, 20)) exampleActiveState (by decide)⟩

/-- Claim C7: on a capture tick whose extracted text equals
last_instruction_text or has length 50 or less, the assistant is not
consulted and last_instruction_text, the cached answer and the
assistant-call counter are all unchanged. -/
theorem newness_gates (inp : TickInput) (s : ServiceState)
    (h : inp.extracted_text = s.last_instruction_text ∨
      inp.extracted_text.length ≤ 50) :
    (process_screen_analysis inp s).2 = false ∧
    (process_screen_analysis inp s).1.last_instruction_text =
      s.last_instruction_text ∧
    (process_screen_analysis inp s).1.cached_ai_response =
      s.cached_ai_response ∧
    (process_screen_analysis inp s).1.session_stats.api_calls_made =
      s.session_stats.api_calls_made := by
  have hneg : ¬(inp.extracted_text ≠ s.last_instruction_text ∧
      50 < inp.extracted_text.length) := by
    rcases h with h | h
    · exact fun hc => hc.1 h
    · exact fun hc => absurd hc.2 (by omega)
  unfold process_screen_analysis
  cases hsw : inp.screenshot_width with
  | none => exact ⟨rfl, rfl, rfl, rfl⟩
  | some w =>
    cases hir : inp.instruction_region with
    | none => exact ⟨rfl, rfl, rfl, rfl⟩
    | some region =>
      dsimp only
      rw [if_neg hneg]
      exact ⟨rfl, rfl, rfl, rfl⟩

/-- Witness for C7 at a concrete tick with text of 11 characters. -/
theorem newness_gates_witness :
    (exampleTickShort.extracted_text =
        exampleService.last_instruction_text ∨
      exampleTickShort.extracted_text.length ≤ 50) ∧
    ((process_screen_analysis exampleTickShort exampleService).2 = false ∧
      (process_screen_analysis exampleTickShort
          exampleService).1.last_instruction_text =
        exampleService.last_instruction_text ∧
      (process_screen_analysis exampleTickShort
          exampleService).1.cached_ai_response =
        exampleService.cached_ai_response ∧
      (process_screen_analysis exampleTickShort
          exampleService).1.session_stats.api_calls_made =
        exampleService.session_stats.api_calls_made) :=
  ⟨by decide, newness_gates exampleTickShort exampleService (by decide)⟩

/-- Claim C8: with a cached answer present, a delivery session performs
exactly one delivery action; it is the clipboard copy when USE_CLIPBOARD
is enabled (or defaulted), simulated typing when USE_CLIPBOARD is disabled
and AUTO_TYPE is enabled, and the clipboard copy when USE_CLIPBOARD is
disabled and AUTO_TYPE is not enabled, in particular when neither key is
set; the two modes are never both performed in one session. -/
theorem delivery_mode_exclusive (cfg : Config) (loc : Int × Int)
    (s : ServiceState) (r : CodeResponse)
    (hc : s.cached_ai_response = some r) :
    (session_actions cfg loc s).length = 1 ∧
    (cfg.use_clipboard.getD true = true →
      session_actions cfg loc s = [DeliveryAction.clipboardCopy r.code]) ∧
    (cfg.use_clipboard.getD true = false → cfg.auto_type.getD false = true →
      session_actions cfg loc s =
        [DeliveryAction.typeNaturally r.code loc.1 loc.2]) ∧
    (cfg.use_clipboard = none → cfg.auto_type = none →
      session_actions cfg loc s = [DeliveryAction.clipboardCopy r.code]) ∧
    (cfg.use_clipboard.getD true = false → cfg.auto_type.getD false = false →
      session_actions cfg loc s = [DeliveryAction.clipboardCopy r.code]) := by
  have key : session_actions cfg loc s =
      (if cfg.use_clipboard.getD true then
        [DeliveryAction.clipboardCopy r.code]
      else if cfg.auto_type.getD false then
        [DeliveryAction.typeNaturally r.code loc.1 loc.2]
      else [DeliveryAction.clipboardCopy r.code]) := by
    unfold session_actions
    rw [hc]
  refine ⟨?_, ?_, ?_, ?_, ?_⟩
  · rw [key]
    split
    · rfl
    · split
      · rfl
      · rfl
  · intro hu
    rw [key, if_pos hu]
  · intro hu ha
    rw [key, if_neg (by rw [hu]; exact Bool.false_ne_true), if_pos ha]
  · intro hu ha
    rw [key]
    simp [hu]
  · intro hu ha
    rw [key, if_neg (by rw [hu]; exact Bool.false_ne_true),
      if_neg (by rw [ha]; exact Bool.false_ne_true)]

/-- Witness for C8 at the concrete defaulted configuration. -/
theorem delivery_mode_exclusive_witness :
    exampleService.cached_ai_response = some exampleHighResponse ∧
    ((session_actions exampleConfig (10, 20) exampleService).length = 1 ∧
      (exampleConfig.use_clipboard.getD true = true →
        session_actions exampleConfig (10, 20) exampleService =
          [DeliveryAction.clipboardCopy exampleHighResponse.code]) ∧
      (exampleConfig.use_clipboard.getD true = false →
        exampleConfig.auto_type.getD false = true →
        session_actions exampleConfig (10, 20) exampleService =
          [DeliveryAction.typeNaturally exampleHighResponse.code 10 20]) ∧
      (exampleConfig.use_clipboard = none → exampleConfig.auto_type = none →
        session_actions exampleConfig (10, 20) exampleService =
          [DeliveryAction.clipboardCopy exampleHighResponse.code]) ∧
      (exampleConfig.use_clipboard.getD true = false →
        exampleConfig.auto_type.getD false = false →
        session_actions exampleConfig (10, 20) exampleService =
          [DeliveryAction.clipboardCopy exampleHighResponse.code])) :=
  ⟨by decide,
   delivery_mode_exclusive exampleConfig (10, 20) exampleService
     exampleHighResponse (by decide)⟩

/-- Claim C9: whenever a capture tick resolves an instruction region, the
stored layout's code-editor region is exactly the horizontal complement of
the instruction region within the screenshot: x is the instruction
region's right edge, width is the screenshot width minus that edge, and y
and height are copied from the instruction region. -/
theorem editor_region_derived (inp : TickInput) (s : ServiceState)
    (w : Int) (region : Region) (h1 : inp.screenshot_width = some w)
    (h2 : inp.instruction_region = some region) :
    (process_screen_analysis inp s).1.active_coding_window =
      some { instruction_panel := region,
             code_editor := { x := region.x + region.width, y := region.y,
                              width := w - (region.x + region.width),
                              height := region.height } } := by
  unfold process_screen_analysis prepare_ai_response
  rw [h1, h2]
  dsimp only
  repeat' split
  all_goals rfl

/-- Witness for C9 at the concrete tick. -/
theorem editor_region_derived_witness :
    exampleTickT2.screenshot_width = some 1280 ∧
    exampleTickT2.instruction_region = some exampleRegion ∧
    (process_screen_analysis exampleTickT2
        exampleStateT1).1.active_coding_window =
      some { instruction_panel := exampleRegion,
             code_editor :=
               { x := exampleRegion.x + exampleRegion.width,
                 y := exampleRegion.y,
                 width := 1280 - (exampleRegion.x + exampleRegion.width),
                 height := exampleRegion.height } } :=
  ⟨rfl, rfl,
   editor_region_derived exampleTickT2 exampleStateT1 1280 exampleRegion
     rfl rfl⟩

/-- Claim C10: clipboard delivery (copy_and_notify) never changes the
keyboard simulator state, so is_currently_typing is unaffected by it; in
clipboard mode (enabled or defaulted) a whole run that starts with
is_typing false keeps it false; and with is_typing false the guard can
reject a trigger only for the rate limit or for pause, never for the
already-delivering condition. -/
theorem clipboard_mode_never_typing (text : String) (ok : Bool)
    (k : KeyboardSimState) (cfg : Config) (es : List Event) (st0 : SysState)
    (hmode : cfg.use_clipboard.getD true = true)
    (h0 : st0.svc.keyboard_sim.is_typing = false)
    (s : ServiceState) (hs : s.keyboard_sim.is_typing = false) :
    (copy_and_notify text ok k).1 = k ∧
    is_currently_typing (copy_and_notify text ok k).1 =
      is_currently_typing k ∧
    (run cfg st0 es).svc.keyboard_sim.is_typing = false ∧
    (can_start_typing_session s = false ↔
      (s.max_sessions_per_hour ≤ s.typing_sessions_this_hour ∨
        s.is_paused = true)) := by
  refine ⟨rfl, rfl, ?_, can_start_reject_iff s hs⟩
  rw [run_keyboard_eq cfg st0 es hmode]
  exact h0

/-- Witness for C10 at the concrete clipboard-defaulted configuration. -/
theorem clipboard_mode_never_typing_witness :
    exampleConfig.use_clipboard.getD true = true ∧
    exampleSys.svc.keyboard_sim.is_typing = false ∧
    exampleService.keyboard_sim.is_typing = false ∧
    ((copy_and_notify "x = 1" true
        { is_typing := false, should_stop := false }).1 =
      { is_typing := false, should_stop := false } ∧
      is_currently_typing (copy_and_notify "x = 1" true
          { is_typing := false, should_stop := false }).1 =
        is_currently_typing
          { is_typing := false, should_stop := false } ∧
      (run exampleConfig exampleSys
          exampleEvents).svc.keyboard_sim.is_typing = false ∧
      (can_start_typing_session exampleService = false ↔
        (exampleService.max_sessions_per_hour ≤
            exampleService.typing_sessions_this_hour ∨
          exampleService.is_paused = true))) :=
  ⟨by decide, by decide, by decide,
   clipboard_mode_never_typing "x = 1" true
     { is_typing := false, should_stop := false } exampleConfig
     exampleEvents exampleSys (by decide) (by decide) exampleService
     (by decide)⟩

end CodeBumble
